import Mathlib

/-!
Verification of the PromptLab CRUD backend (`backend/app/models.py`,
`backend/app/storage.py`, `backend/app/utils.py`, `backend/app/api.py`).

The embedding is shallow and executable:
* Python `dict[str, T]` (insertion ordered, in-place value update) is an
  association list `List (String × T)`;
* `datetime` timestamps are `Nat` (only their ordering matters);
* Python `str.lower()` is per-character lowering, `a in b` is substring
  containment on the character lists;
* `HTTPException` is an `Except ApiError` result paired with the storage
  state at the moment the handler returns or raises (the in-place mutation
  performed by the PATCH handler is therefore visible in the error state);
* FastAPI/Pydantic body validation of `PromptUpdate` is `validatePromptUpdate`
  from an all-optional `RequestBody`.
Fresh ids and the current clock value are passed to the handlers as explicit
arguments (`newId`, `now`).
-/

-- ============ Data model (models.py) ============

/-- `PromptBase` of models.py: `title` and `content` are required fields,
`description` and `collection_id` are `Optional[str]`.  `PromptCreate` and
`PromptUpdate` both equal `PromptBase`. -/
structure PromptBase where
  title : String
  content : String
  description : Option String
  collection_id : Option String
deriving DecidableEq

/-- `Prompt` of models.py: `PromptBase` plus `id`, `created_at`, `updated_at`. -/
structure Prompt where
  id : String
  title : String
  content : String
  description : Option String
  collection_id : Option String
  created_at : Nat
  updated_at : Nat
deriving DecidableEq

/-- `CollectionBase` of models.py. -/
structure CollectionBase where
  name : String
  description : Option String
deriving DecidableEq

/-- `Collection` of models.py: `CollectionBase` plus `id` and `created_at`. -/
structure Collection where
  id : String
  name : String
  description : Option String
  created_at : Nat
deriving DecidableEq

/-- Outcomes raised by the handlers: `HTTPException(404, d)`,
`HTTPException(400, d)`, and the FastAPI 422 body-validation rejection. -/
inductive ApiError where
  | notFound (detail : String)
  | badRequest (detail : String)
  | validationError
deriving DecidableEq

-- ============ Python dict on String keys ============

/-- `d[k] = v` on a Python dict: replaces the value in place when the key is
present (keeping its position), otherwise appends at the end (insertion
order).  Keys are unique in a Python dict, so replacing the first match is
a faithful model. -/
def dictInsert : List (String × α) → String → α → List (String × α)
  | [], k, v => [(k, v)]
  | kv :: rest, k, v =>
    if kv.1 == k then (k, v) :: rest
    else kv :: dictInsert rest k v

/-- `del d[k]` on a Python dict (keys are unique, so dropping every match
equals dropping the one entry). -/
def dictDelete (l : List (String × α)) (k : String) : List (String × α) :=
  l.filter (fun kv => kv.1 != k)

/-- `k in d` for a Python dict modelled as an association list. -/
def dictContains (l : List (String × α)) (k : String) : Bool :=
  (l.lookup k).isSome

-- ============ Storage (storage.py) ============

/-- The two containers of `Storage.__init__`. -/
structure Storage where
  prompts : List (String × Prompt)
  collections : List (String × Collection)
deriving DecidableEq

/-- A freshly constructed `Storage()`. -/
def Storage.empty : Storage := { prompts := [], collections := [] }

/-- `Storage.create_prompt`: `self._prompts[prompt.id] = prompt; return prompt`. -/
def Storage.create_prompt (s : Storage) (prompt : Prompt) : Storage × Prompt :=
  ({ s with prompts := dictInsert s.prompts prompt.id prompt }, prompt)

/-- `Storage.get_prompt`: `self._prompts.get(prompt_id)`. -/
def Storage.get_prompt (s : Storage) (prompt_id : String) : Option Prompt :=
  s.prompts.lookup prompt_id

/-- `Storage.get_all_prompts`: `list(self._prompts.values())`. -/
def Storage.get_all_prompts (s : Storage) : List Prompt :=
  s.prompts.map (fun kv => kv.2)

/-- `Storage.update_prompt`: replace the stored value when the id exists,
otherwise return `None` and leave the store unchanged. -/
def Storage.update_prompt (s : Storage) (prompt_id : String) (prompt : Prompt) :
    Storage × Option Prompt :=
  if dictContains s.prompts prompt_id then
    ({ s with prompts := dictInsert s.prompts prompt_id prompt }, some prompt)
  else (s, none)

/-- `Storage.delete_prompt`. -/
def Storage.delete_prompt (s : Storage) (prompt_id : String) : Storage × Bool :=
  if dictContains s.prompts prompt_id then
    ({ s with prompts := dictDelete s.prompts prompt_id }, true)
  else (s, false)

/-- `Storage.create_collection`. -/
def Storage.create_collection (s : Storage) (collection : Collection) :
    Storage × Collection :=
  ({ s with collections := dictInsert s.collections collection.id collection }, collection)

/-- `Storage.get_collection`. -/
def Storage.get_collection (s : Storage) (collection_id : String) : Option Collection :=
  s.collections.lookup collection_id

/-- `Storage.get_all_collections`. -/
def Storage.get_all_collections (s : Storage) : List Collection :=
  s.collections.map (fun kv => kv.2)

/-- `Storage.delete_collection`. -/
def Storage.delete_collection (s : Storage) (collection_id : String) : Storage × Bool :=
  if dictContains s.collections collection_id then
    ({ s with collections := dictDelete s.collections collection_id }, true)
  else (s, false)

/-- `Storage.get_prompts_by_collection`. -/
def Storage.get_prompts_by_collection (s : Storage) (collection_id : String) : List Prompt :=
  (s.prompts.map (fun kv => kv.2)).filter (fun p => p.collection_id == some collection_id)

/-- `Storage.update_prompts_collection_to_none`: for every stored prompt whose
`collection_id` equals the argument, set that field to `None` in place; all
other fields and all other prompts are untouched. -/
def Storage.update_prompts_collection_to_none (s : Storage) (collection_id : String) : Storage :=
  { s with prompts := s.prompts.map (fun kv =>
      if kv.2.collection_id == some collection_id then
        (kv.1, { kv.2 with collection_id := none })
      else kv) }

-- ============ String primitives (Python str) ============

/-- Python `s.lower()`: per-character lowering (core `String.toLower` is
`String.map Char.toLower`; we use the character-list form for reasoning). -/
def pyLower (s : String) : String := ⟨s.data.map Char.toLower⟩

/-- Python `needle in hay` on strings: substring containment. -/
def pyContains (hay needle : String) : Bool :=
  decide (needle.data <:+: hay.data)

/-- Python truthiness of an `Optional[str]`: `None` and `""` are falsy. -/
def truthy : Option String → Bool
  | none => false
  | some s => !(s == "")

/-- The payload of an `Optional[str]` at a point where the source has already
established truthiness (so the `none` branch is unreachable there). -/
def optVal : Option String → String
  | none => ""
  | some s => s

-- ============ Utils (utils.py) ============

/-- Stable descending-by-`created_at` insertion step: the inserted element
goes before the first strictly older element, after any element at least as
new (so earlier elements win ties, as in Python's stable sort). -/
def insertByDateDesc (p : Prompt) : List Prompt → List Prompt
  | [] => [p]
  | q :: rest =>
    if q.created_at ≤ p.created_at then p :: q :: rest
    else q :: insertByDateDesc p rest

/-- Stable ascending-by-`created_at` insertion step. -/
def insertByDateAsc (p : Prompt) : List Prompt → List Prompt
  | [] => [p]
  | q :: rest =>
    if p.created_at ≤ q.created_at then p :: q :: rest
    else q :: insertByDateAsc p rest

/-- `sort_prompts_by_date` of utils.py:
`sorted(prompts, key=lambda p: p.created_at, reverse=descending)`.
Python's `sorted` is a stable sort by key; we model it with a stable
insertion sort, descending exactly when `reverse=True`. -/
def sort_prompts_by_date (prompts : List Prompt) (descending : Bool) : List Prompt :=
  if descending then prompts.foldr insertByDateDesc []
  else prompts.foldr insertByDateAsc []

/-- `filter_prompts_by_collection` of utils.py: keep prompts whose
`collection_id` equals the given id (`None == "x"` is false in Python). -/
def filter_prompts_by_collection (prompts : List Prompt) (collection_id : String) : List Prompt :=
  prompts.filter (fun p => p.collection_id == some collection_id)

/-- `search_prompts` of utils.py: keep prompts with the lowered query a
substring of the lowered title, or with a truthy (non-None, non-empty)
description whose lowering contains the lowered query. -/
def search_prompts (prompts : List Prompt) (query : String) : List Prompt :=
  let query_lower := pyLower query
  prompts.filter (fun p =>
    pyContains (pyLower p.title) query_lower ||
    (match p.description with
     | some d => !(d == "") && pyContains (pyLower d) query_lower
     | none => false))

-- ============ Request handlers (api.py) ============

/-- `list_prompts` handler: fetch all, filter by collection when the
parameter is truthy, search when truthy, sort descending by date, return
the list with its length. -/
def Api.list_prompts (st : Storage) (collection_id : Option String)
    (search : Option String) : List Prompt × Nat :=
  let prompts := Storage.get_all_prompts st
  let prompts :=
    if truthy collection_id then filter_prompts_by_collection prompts (optVal collection_id)
    else prompts
  let prompts :=
    if truthy search then search_prompts prompts (optVal search)
    else prompts
  let prompts := sort_prompts_by_date prompts true
  (prompts, prompts.length)

/-- `get_prompt` handler: 404 when absent. -/
def Api.get_prompt (st : Storage) (prompt_id : String) : Except ApiError Prompt :=
  match Storage.get_prompt st prompt_id with
  | none => Except.error (ApiError.notFound "Prompt not found")
  | some p => Except.ok p

/-- `create_prompt` handler: when `collection_id` is truthy it must resolve
or the handler raises 400; then a `Prompt` is built from the body with a
fresh id and the current time and stored. -/
def Api.create_prompt (st : Storage) (newId : String) (now : Nat)
    (prompt_data : PromptBase) : Storage × Except ApiError Prompt :=
  if truthy prompt_data.collection_id &&
      (Storage.get_collection st (optVal prompt_data.collection_id)).isNone then
    (st, Except.error (ApiError.badRequest "Collection not found"))
  else
    let prompt : Prompt :=
      { id := newId, title := prompt_data.title, content := prompt_data.content,
        description := prompt_data.description,
        collection_id := prompt_data.collection_id,
        created_at := now, updated_at := now }
    let (st2, p) := Storage.create_prompt st prompt
    (st2, Except.ok p)

/-- `update_prompt` handler (PUT): 404 when the prompt is absent; 400 when a
truthy `collection_id` does not resolve; otherwise every body field
overwrites the stored one (an absent `collection_id` becomes `none`),
`id` and `created_at` are carried over and `updated_at` is refreshed. -/
def Api.update_prompt (st : Storage) (now : Nat) (prompt_id : String)
    (prompt_data : PromptBase) : Storage × Except ApiError Prompt :=
  match Storage.get_prompt st prompt_id with
  | none => (st, Except.error (ApiError.notFound "Prompt not found"))
  | some existing =>
    if truthy prompt_data.collection_id &&
        (Storage.get_collection st (optVal prompt_data.collection_id)).isNone then
      (st, Except.error (ApiError.badRequest "Collection not found"))
    else
      let updated_prompt : Prompt :=
        { id := existing.id, title := prompt_data.title, content := prompt_data.content,
          description := prompt_data.description,
          collection_id := prompt_data.collection_id,
          created_at := existing.created_at, updated_at := now }
      let (st2, _) := Storage.update_prompt st prompt_id updated_prompt
      (st2, Except.ok updated_prompt)

/-- `patch_prompt` handler (PATCH).  The source sets
`updated_prompt_data = existing`, which aliases the object held in the
store, so every field assignment is immediately visible through the store —
including when the handler later raises 400.  `title` and `content` are
required (non-Optional) fields of `PromptUpdate`, so their `is not None`
guards in the source always hold and both fields are always overwritten;
`description` is Optional and genuinely guarded; `collection_id` uses a
truthiness guard and is assigned only after it resolves. -/
def Api.patch_prompt (st : Storage) (now : Nat) (prompt_id : String)
    (prompt_data : PromptBase) : Storage × Except ApiError Prompt :=
  match Storage.get_prompt st prompt_id with
  | none => (st, Except.error (ApiError.notFound "Prompt not found"))
  | some existing =>
    let afterFields : Prompt :=
      { existing with
        title := prompt_data.title,
        content := prompt_data.content,
        description := match prompt_data.description with
          | some d => some d
          | none => existing.description }
    let stMut : Storage := { st with prompts := dictInsert st.prompts prompt_id afterFields }
    if truthy prompt_data.collection_id then
      match Storage.get_collection st (optVal prompt_data.collection_id) with
      | none => (stMut, Except.error (ApiError.badRequest "Collection not found"))
      | some _ =>
        let final : Prompt :=
          { afterFields with collection_id := prompt_data.collection_id, updated_at := now }
        let (st2, _) := Storage.update_prompt stMut prompt_id final
        (st2, Except.ok final)
    else
      let final : Prompt := { afterFields with updated_at := now }
      let (st2, _) := Storage.update_prompt stMut prompt_id final
      (st2, Except.ok final)

/-- `delete_prompt` handler: 404 when absent. -/
def Api.delete_prompt (st : Storage) (prompt_id : String) : Storage × Except ApiError Unit :=
  let (st1, existed) := Storage.delete_prompt st prompt_id
  if existed then (st1, Except.ok ()) else (st1, Except.error (ApiError.notFound "Prompt not found"))

/-- `list_collections` handler. -/
def Api.list_collections (st : Storage) : List Collection × Nat :=
  let collections := Storage.get_all_collections st
  (collections, collections.length)

/-- `get_collection` handler: 404 when absent. -/
def Api.get_collection (st : Storage) (collection_id : String) : Except ApiError Collection :=
  match Storage.get_collection st collection_id with
  | none => Except.error (ApiError.notFound "Collection not found")
  | some c => Except.ok c

/-- `create_collection` handler. -/
def Api.create_collection (st : Storage) (newId : String) (now : Nat)
    (collection_data : CollectionBase) : Storage × Collection :=
  let collection : Collection :=
    { id := newId, name := collection_data.name,
      description := collection_data.description, created_at := now }
  Storage.create_collection st collection

/-- `delete_collection` handler: 404 when absent; on success,
cascade-unlink the deleted id from every prompt. -/
def Api.delete_collection (st : Storage) (collection_id : String) :
    Storage × Except ApiError Unit :=
  let (st1, existed) := Storage.delete_collection st collection_id
  if existed then
    (Storage.update_prompts_collection_to_none st1 collection_id, Except.ok ())
  else (st1, Except.error (ApiError.notFound "Collection not found"))

-- ============ Body validation (FastAPI/Pydantic layer) ============

/-- A JSON request body for the prompt endpoints, before validation: every
field may be absent. -/
structure RequestBody where
  title : Option String
  content : Option String
  description : Option String
  collection_id : Option String
deriving DecidableEq

/-- Pydantic validation of `PromptUpdate` (= `PromptBase` of models.py):
`title` is required with 1–200 characters, `content` is required with at
least 1 character, `description` is optional with at most 500 characters,
`collection_id` is optional and unconstrained.  A body missing `title` or
`content` is rejected (FastAPI answers 422 and the handler never runs). -/
def validatePromptUpdate (b : RequestBody) : Option PromptBase :=
  match b.title, b.content with
  | some t, some c =>
    if 1 ≤ t.length && t.length ≤ 200 && 1 ≤ c.length &&
        (match b.description with
         | some d => d.length ≤ 500
         | none => true) then
      some { title := t, content := c, description := b.description,
             collection_id := b.collection_id }
    else none
  | _, _ => none

/-- The full PATCH endpoint: body validation, then the handler. -/
def Api.patch_prompt_endpoint (st : Storage) (now : Nat) (prompt_id : String)
    (body : RequestBody) : Storage × Except ApiError Prompt :=
  match validatePromptUpdate body with
  | none => (st, Except.error ApiError.validationError)
  | some prompt_data => Api.patch_prompt st now prompt_id prompt_data

-- ============ Spec-side definitions (for refinement claims) ============

/-- Spec-side search predicate, written from the spec's words: the prompt
matches when its `title` contains the query as a case-insensitive
substring, or its `description` is non-null and contains the query as a
case-insensitive substring. -/
def specSearchMatch (q : String) (p : Prompt) : Bool :=
  pyContains (pyLower p.title) (pyLower q) ||
  (match p.description with
   | some d => pyContains (pyLower d) (pyLower q)
   | none => false)

-- ============ Public-API transition system (for the store invariant) ============

/-- One public mutating API operation, with the fresh id / clock inputs it
consumes. -/
inductive Op where
  | createPromptOp (newId : String) (now : Nat) (pd : PromptBase)
  | putPromptOp (now : Nat) (prompt_id : String) (pd : PromptBase)
  | patchPromptOp (now : Nat) (prompt_id : String) (pd : PromptBase)
  | deletePromptOp (prompt_id : String)
  | createCollectionOp (newId : String) (now : Nat) (cd : CollectionBase)
  | deleteCollectionOp (collection_id : String)

/-- The storage state after running one public operation (responses and
error details are dropped; the error paths leave exactly the state the
handler leaves). -/
def step (st : Storage) : Op → Storage
  | Op.createPromptOp newId now pd => (Api.create_prompt st newId now pd).1
  | Op.putPromptOp now pid pd => (Api.update_prompt st now pid pd).1
  | Op.patchPromptOp now pid pd => (Api.patch_prompt st now pid pd).1
  | Op.deletePromptOp pid => (Api.delete_prompt st pid).1
  | Op.createCollectionOp newId now cd => (Api.create_collection st newId now cd).1
  | Op.deleteCollectionOp cid => (Api.delete_collection st cid).1

/-- Key consistency: every stored prompt and collection sits under a key
equal to its own `id` field. -/
def KeyConsistent (st : Storage) : Prop :=
  (∀ kv ∈ st.prompts, kv.2.id = kv.1) ∧ (∀ kv ∈ st.collections, kv.2.id = kv.1)

-- ============ Concrete sample state (for witnesses and counterexamples) ============

/-- A sample prompt linked to collection `c1`, created at time 1. -/
def samplePromptA : Prompt :=
  { id := "p1", title := "Alpha", content := "first content",
    description := some "greeting", collection_id := some "c1",
    created_at := 1, updated_at := 1 }

/-- A sample prompt in no collection, created at time 2. -/
def samplePromptB : Prompt :=
  { id := "p2", title := "Beta", content := "second content",
    description := none, collection_id := none,
    created_at := 2, updated_at := 2 }

/-- A sample collection with id `c1`. -/
def sampleCollection : Collection :=
  { id := "c1", name := "C1", description := none, created_at := 0 }

/-- A sample storage state holding the two prompts and the collection. -/
def sampleStore : Storage :=
  { prompts := [("p1", samplePromptA), ("p2", samplePromptB)],
    collections := [("c1", sampleCollection)] }

-- ============ Helper lemmas about the dict model ============

theorem lookup_mem {α} {l : List (String × α)} {k : String} {v : α}
    (h : l.lookup k = some v) : (k, v) ∈ l := by
  induction l with
  | nil => simp [List.lookup] at h
  | cons kv rest ih =>
    obtain ⟨k1, v1⟩ := kv
    by_cases hk : k = k1
    · subst hk
      simp [List.lookup] at h
      simp [h]
    · have hbeq : (k == k1) = false := by simp [hk]
      simp [List.lookup, hbeq] at h
      exact List.mem_cons_of_mem _ (ih h)

theorem dictContains_of_lookup {α} {l : List (String × α)} {k : String} {v : α}
    (h : l.lookup k = some v) : dictContains l k = true := by
  simp [dictContains, h]

theorem lookup_dictInsert_self {α} (l : List (String × α)) (k : String) (v : α) :
    (dictInsert l k v).lookup k = some v := by
  induction l with
  | nil => simp [dictInsert, List.lookup]
  | cons kv rest ih =>
    obtain ⟨k1, v1⟩ := kv
    cases hbeq : (k1 == k) with
    | true => simp [dictInsert, hbeq, List.lookup]
    | false =>
      have hbeq2 : (k == k1) = false := by
        simp only [beq_eq_false_iff_ne] at hbeq ⊢
        exact fun h0 => hbeq h0.symm
      simpa [dictInsert, hbeq, List.lookup, hbeq2] using ih

theorem dictContains_dictInsert_self {α} (l : List (String × α)) (k : String) (v : α) :
    dictContains (dictInsert l k v) k = true :=
  dictContains_of_lookup (lookup_dictInsert_self l k v)

theorem lookup_dictDelete_self {α} (l : List (String × α)) (k : String) :
    (dictDelete l k).lookup k = none := by
  induction l with
  | nil => simp [dictDelete, List.lookup]
  | cons kv rest ih =>
    obtain ⟨k1, v1⟩ := kv
    by_cases hk : k1 = k
    · subst hk
      simpa [dictDelete] using ih
    · have hne : (k1 != k) = true := by simp [hk]
      have hbeq2 : (k == k1) = false := by
        simp only [beq_eq_false_iff_ne]
        exact fun h0 => hk h0.symm
      simpa [dictDelete, hne, List.lookup, hbeq2] using ih

theorem mem_dictInsert {α} {l : List (String × α)} {k : String} {v : α}
    {kv : String × α} (h : kv ∈ dictInsert l k v) : kv ∈ l ∨ kv = (k, v) := by
  induction l with
  | nil =>
    simp [dictInsert] at h
    exact Or.inr h
  | cons hd rest ih =>
    obtain ⟨k1, v1⟩ := hd
    cases hbeq : (k1 == k) with
    | true =>
      simp [dictInsert, hbeq] at h
      rcases h with h1 | h2
      · exact Or.inr (by simp [h1])
      · exact Or.inl (List.mem_cons_of_mem _ h2)
    | false =>
      simp [dictInsert, hbeq] at h
      rcases h with h1 | h2
      · exact Or.inl (by simp [h1])
      · rcases ih h2 with h3 | h4
        · exact Or.inl (List.mem_cons_of_mem _ h3)
        · exact Or.inr h4

-- ============ Helper lemmas about the stable sort ============

theorem mem_insertByDateDesc {x p : Prompt} {l : List Prompt} :
    x ∈ insertByDateDesc p l ↔ x = p ∨ x ∈ l := by
  induction l with
  | nil => simp [insertByDateDesc]
  | cons q rest ih =>
    by_cases h : q.created_at ≤ p.created_at
    · simp [insertByDateDesc, h]
    · simp [insertByDateDesc, h, ih]
      tauto

theorem pairwise_insertByDateDesc {p : Prompt} {l : List Prompt}
    (h : List.Pairwise (fun a b => b.created_at ≤ a.created_at) l) :
    List.Pairwise (fun a b => b.created_at ≤ a.created_at) (insertByDateDesc p l) := by
  induction l with
  | nil => simp [insertByDateDesc]
  | cons q rest ih =>
    rcases List.pairwise_cons.mp h with ⟨hq, hrest⟩
    by_cases hle : q.created_at ≤ p.created_at
    · simp only [insertByDateDesc, if_pos hle]
      refine List.pairwise_cons.mpr ⟨?_, h⟩
      intro x hx
      rcases List.mem_cons.mp hx with h1 | h2
      · subst h1
        exact hle
      · exact le_trans (hq x h2) hle
    · simp only [insertByDateDesc, if_neg hle]
      refine List.pairwise_cons.mpr ⟨?_, ih hrest⟩
      intro x hx
      rcases mem_insertByDateDesc.mp hx with h1 | h2
      · subst h1
        exact Nat.le_of_lt (Nat.lt_of_not_le hle)
      · exact hq x h2

theorem foldrDesc_pairwise (l : List Prompt) :
    List.Pairwise (fun a b => b.created_at ≤ a.created_at) (l.foldr insertByDateDesc []) := by
  induction l with
  | nil => simp
  | cons p rest ih => exact pairwise_insertByDateDesc ih

theorem sortDesc_pairwise (l : List Prompt) :
    List.Pairwise (fun a b => b.created_at ≤ a.created_at) (sort_prompts_by_date l true) := by
  have hdef : sort_prompts_by_date l true = l.foldr insertByDateDesc [] := rfl
  rw [hdef]
  exact foldrDesc_pairwise l

theorem list_prompts_fst_eq_sort (st : Storage) (c q : Option String) :
    ∃ l, (Api.list_prompts st c q).1 = sort_prompts_by_date l true := ⟨_, rfl⟩

-- ============ Helper lemma about the cascade-unlink map ============

theorem lookup_map_value {α β} (g : α → β) (l : List (String × α)) (k : String) :
    (l.map (fun kv => (kv.1, g kv.2))).lookup k = (l.lookup k).map g := by
  induction l with
  | nil => simp [List.lookup]
  | cons kv rest ih =>
    obtain ⟨k1, v1⟩ := kv
    cases hbeq : (k == k1) with
    | true => simp [List.lookup, hbeq]
    | false => simp [List.lookup, hbeq, ih]

theorem lookup_unlink (l : List (String × Prompt)) (cid k : String) :
    (l.map (fun kv =>
      if kv.2.collection_id == some cid then (kv.1, { kv.2 with collection_id := none })
      else kv)).lookup k
      = (l.lookup k).map (fun p =>
          if p.collection_id = some cid then { p with collection_id := none } else p) := by
  have hmap : (l.map (fun kv =>
      if kv.2.collection_id == some cid then (kv.1, { kv.2 with collection_id := none })
      else kv))
      = l.map (fun kv =>
          (kv.1, if kv.2.collection_id = some cid then { kv.2 with collection_id := none }
                 else kv.2)) := by
    congr 1
    funext kv
    by_cases h : kv.2.collection_id = some cid
    · simp [h]
    · simp [h]
  rw [hmap]
  exact lookup_map_value
    (fun p => if p.collection_id = some cid then { p with collection_id := none } else p) l k

-- ============ Claim theorems ============

/-- C10: in `list_prompts`, a `collection_id` filter equal to the empty
string is treated as absent (Python truthiness): the request returns all
prompts, sorted by date descending, rather than the prompts whose
`collection_id` equals the empty string; the `search` parameter gets the
same truthiness treatment. -/
theorem C10_empty_string_params_treated_as_absent (st : Storage) (c q : Option String) :
    Api.list_prompts st (some "") q = Api.list_prompts st none q ∧
    (Api.list_prompts st (some "") none).1 =
      sort_prompts_by_date (Storage.get_all_prompts st) true ∧
    Api.list_prompts st c (some "") = Api.list_prompts st c none :=
  ⟨rfl, rfl, rfl⟩

/-- C7 counterexample: creating a prompt whose `collection_id` is the
non-null value `""` — which resolves to no collection — does NOT signal the
invalid-reference error: the handler's truthiness test skips the check, the
prompt is created with `collection_id = ""`, and the store grows by one. -/
theorem C7_counterexample_empty_string_id :
    Storage.get_collection sampleStore "" = none ∧
    (Api.create_prompt sampleStore "p3" 5
        { title := "T", content := "cccccccccc", description := none,
          collection_id := some "" }).2 =
      Except.ok { id := "p3", title := "T", content := "cccccccccc", description := none,
                  collection_id := some "", created_at := 5, updated_at := 5 } ∧
    (Storage.get_all_prompts (Api.create_prompt sampleStore "p3" 5
        { title := "T", content := "cccccccccc", description := none,
          collection_id := some "" }).1).length =
      (Storage.get_all_prompts sampleStore).length + 1 :=
  ⟨rfl, rfl, rfl⟩

/-- C7 (amended): for every create-prompt request whose `collection_id` is a
non-empty string that does not resolve to an existing collection, the
handler signals the invalid-reference (400) error and the store is exactly
unchanged, so no prompt is created. -/
theorem C7_amended_nonempty_unresolved_rejected
    (st : Storage) (newId : String) (now : Nat) (pd : PromptBase) (cid : String)
    (hcid : pd.collection_id = some cid) (hne : cid ≠ "")
    (hres : Storage.get_collection st cid = none) :
    Api.create_prompt st newId now pd =
      (st, Except.error (ApiError.badRequest "Collection not found")) := by
  have ht : truthy pd.collection_id = true := by
    rw [hcid]
    simp [truthy, hne]
  have hov : optVal pd.collection_id = cid := by
    rw [hcid]
    simp [optVal]
  simp [Api.create_prompt, ht, hov, hres]

/-- C7 witness: the amended statement evaluated at a concrete store and
request. -/
theorem C7_amended_witness :
    (({ title := "T", content := "cccccccccc", description := none,
        collection_id := some "nope" } : PromptBase).collection_id = some "nope" ∧
      ("nope" : String) ≠ "" ∧ Storage.get_collection sampleStore "nope" = none) ∧
    Api.create_prompt sampleStore "p3" 5
        { title := "T", content := "cccccccccc", description := none,
          collection_id := some "nope" } =
      (sampleStore, Except.error (ApiError.badRequest "Collection not found")) :=
  ⟨⟨rfl, by decide, rfl⟩,
   C7_amended_nonempty_unresolved_rejected sampleStore "p3" 5 _ "nope" rfl (by decide) rfl⟩

/-- C4 (code bug): a PATCH whose body sets only `title` never reaches the
handler: `PromptUpdate` inherits `title` and `content` as required fields,
so body validation rejects the request (422) and the stored prompt —
including its `updated_at` — is unchanged, contradicting the specified
partial-update semantics (the handler's `is not None` guards on `title`
and `content` are unreachable). -/
theorem C4_code_bug_title_only_patch_rejected :
    Api.patch_prompt_endpoint sampleStore 9 "p1"
        { title := some "Updated title", content := none, description := none,
          collection_id := none } =
      (sampleStore, Except.error ApiError.validationError) := rfl

/-- C2 counterexample: a PATCH carrying a new `title`/`content` and an
unresolvable `collection_id` signals the invalid-reference error, yet the
stored prompt's `title` has already been overwritten ("Alpha" → "New"):
the handler mutates the fetched record in place before the reference
check, so the error is partially applied. -/
theorem C2_counterexample_partial_application :
    samplePromptA.title = "Alpha" ∧
    (Api.patch_prompt sampleStore 9 "p1"
        { title := "New", content := "newcontent", description := none,
          collection_id := some "nope" }).2 =
      Except.error (ApiError.badRequest "Collection not found") ∧
    (Storage.get_prompt (Api.patch_prompt sampleStore 9 "p1"
        { title := "New", content := "newcontent", description := none,
          collection_id := some "nope" }).1 "p1").map Prompt.title = some "New" :=
  ⟨rfl, rfl, rfl⟩

/-- C2 (amended): when a PATCH's `collection_id` is a non-empty string that
does not resolve, the handler signals the invalid-reference error and the
stored prompt's `collection_id` and `updated_at` are unchanged — but the
`title`, `content` and (when present) `description` from the body have
already been applied to the stored prompt in place. -/
theorem C2_amended_patch_invalid_ref_partially_applied
    (st : Storage) (now : Nat) (pid cid : String) (pd : PromptBase) (existing : Prompt)
    (hget : Storage.get_prompt st pid = some existing)
    (hcid : pd.collection_id = some cid) (hne : cid ≠ "")
    (hres : Storage.get_collection st cid = none) :
    (Api.patch_prompt st now pid pd).2 =
      Except.error (ApiError.badRequest "Collection not found") ∧
    Storage.get_prompt (Api.patch_prompt st now pid pd).1 pid =
      some { existing with
             title := pd.title, content := pd.content,
             description := match pd.description with
               | some d => some d
               | none => existing.description } ∧
    (Storage.get_prompt (Api.patch_prompt st now pid pd).1 pid).map Prompt.collection_id =
      some existing.collection_id ∧
    (Storage.get_prompt (Api.patch_prompt st now pid pd).1 pid).map Prompt.updated_at =
      some existing.updated_at := by
  have ht : truthy pd.collection_id = true := by
    rw [hcid]
    simp [truthy, hne]
  have hov : optVal pd.collection_id = cid := by
    rw [hcid]
    simp [optVal]
  have hget2 : List.lookup pid st.prompts = some existing := hget
  refine ⟨?_, ?_, ?_, ?_⟩ <;>
    simp [Api.patch_prompt, hget2, ht, hov, hres, Storage.get_prompt,
      lookup_dictInsert_self]

/-- C2 witness: the amended statement evaluated at a concrete store and
request. -/
theorem C2_amended_witness :
    (Storage.get_prompt sampleStore "p1" = some samplePromptA ∧
      ({ title := "New", content := "newcontent", description := none,
         collection_id := some "nope" } : PromptBase).collection_id = some "nope" ∧
      ("nope" : String) ≠ "" ∧
      Storage.get_collection sampleStore "nope" = none) ∧
    ((Api.patch_prompt sampleStore 9 "p1"
        { title := "New", content := "newcontent", description := none,
          collection_id := some "nope" }).2 =
      Except.error (ApiError.badRequest "Collection not found") ∧
    Storage.get_prompt (Api.patch_prompt sampleStore 9 "p1"
        { title := "New", content := "newcontent", description := none,
          collection_id := some "nope" }).1 "p1" =
      some { samplePromptA with
             title := "New", content := "newcontent",
             description := samplePromptA.description } ∧
    (Storage.get_prompt (Api.patch_prompt sampleStore 9 "p1"
        { title := "New", content := "newcontent", description := none,
          collection_id := some "nope" }).1 "p1").map Prompt.collection_id =
      some samplePromptA.collection_id ∧
    (Storage.get_prompt (Api.patch_prompt sampleStore 9 "p1"
        { title := "New", content := "newcontent", description := none,
          collection_id := some "nope" }).1 "p1").map Prompt.updated_at =
      some samplePromptA.updated_at) :=
  ⟨⟨rfl, rfl, by decide, rfl⟩,
   C2_amended_patch_invalid_ref_partially_applied sampleStore 9 "p1" "nope" _ samplePromptA
     rfl rfl (by decide) rfl⟩

/-- C3: on an existing prompt, a PUT whose body omits `collection_id` stores
`collection_id = null` (full overwrite), while a PATCH with the same body
preserves the prior `collection_id`; when the prior value is non-null the
two results differ. -/
theorem C3_put_clears_patch_preserves
    (st : Storage) (now : Nat) (pid : String) (pd : PromptBase) (existing : Prompt)
    (hget : Storage.get_prompt st pid = some existing)
    (homit : pd.collection_id = none) :
    (Storage.get_prompt (Api.update_prompt st now pid pd).1 pid).map Prompt.collection_id =
      some none ∧
    (Storage.get_prompt (Api.patch_prompt st now pid pd).1 pid).map Prompt.collection_id =
      some existing.collection_id ∧
    (existing.collection_id ≠ none →
      (Storage.get_prompt (Api.update_prompt st now pid pd).1 pid).map Prompt.collection_id ≠
        (Storage.get_prompt (Api.patch_prompt st now pid pd).1 pid).map Prompt.collection_id) := by
  have hc : dictContains st.prompts pid = true := dictContains_of_lookup hget
  have hget2 : List.lookup pid st.prompts = some existing := hget
  have h1 : (Storage.get_prompt (Api.update_prompt st now pid pd).1 pid).map Prompt.collection_id =
      some none := by
    simp [Api.update_prompt, hget2, homit, truthy, Storage.update_prompt, hc,
      Storage.get_prompt, lookup_dictInsert_self]
  have h2 : (Storage.get_prompt (Api.patch_prompt st now pid pd).1 pid).map Prompt.collection_id =
      some existing.collection_id := by
    simp [Api.patch_prompt, hget2, homit, truthy, Storage.update_prompt,
      dictContains_dictInsert_self, Storage.get_prompt, lookup_dictInsert_self]
  refine ⟨h1, h2, ?_⟩
  intro hne
  rw [h1, h2]
  intro hcontra
  exact hne (Option.some_injective _ hcontra).symm

/-- C3 witness: the statement evaluated on the sample store (prompt `p1`
has prior `collection_id = some "c1"`). -/
theorem C3_witness :
    (Storage.get_prompt sampleStore "p1" = some samplePromptA ∧
      ({ title := "New", content := "newcontent", description := none,
         collection_id := none } : PromptBase).collection_id = none) ∧
    ((Storage.get_prompt (Api.update_prompt sampleStore 9 "p1"
        { title := "New", content := "newcontent", description := none,
          collection_id := none }).1 "p1").map Prompt.collection_id = some none ∧
    (Storage.get_prompt (Api.patch_prompt sampleStore 9 "p1"
        { title := "New", content := "newcontent", description := none,
          collection_id := none }).1 "p1").map Prompt.collection_id =
      some samplePromptA.collection_id ∧
    (samplePromptA.collection_id ≠ none →
      (Storage.get_prompt (Api.update_prompt sampleStore 9 "p1"
          { title := "New", content := "newcontent", description := none,
            collection_id := none }).1 "p1").map Prompt.collection_id ≠
        (Storage.get_prompt (Api.patch_prompt sampleStore 9 "p1"
            { title := "New", content := "newcontent", description := none,
              collection_id := none }).1 "p1").map Prompt.collection_id)) :=
  ⟨⟨rfl, rfl⟩,
   C3_put_clears_patch_preserves sampleStore 9 "p1" _ samplePromptA rfl rfl⟩

/-- C8: for a non-empty query, the search step returns exactly the prompts
whose title contains the query case-insensitively or whose description is
non-null and contains it case-insensitively (the source's extra
truthiness guard on the description cannot change the result, because a
non-empty query is never a substring of an empty description); an empty
or absent query leaves the set unfiltered in `list_prompts`. -/
theorem C8_search_returns_exactly_matches
    (ps : List Prompt) (q : String) (st : Storage) (c : Option String)
    (hq : q ≠ "") :
    search_prompts ps q = ps.filter (specSearchMatch q) ∧
    Api.list_prompts st c (some "") = Api.list_prompts st c none ∧
    (Api.list_prompts st c none).1 =
      sort_prompts_by_date
        (if truthy c then filter_prompts_by_collection (Storage.get_all_prompts st) (optVal c)
         else Storage.get_all_prompts st) true := by
  refine ⟨?_, rfl, rfl⟩
  have hqd : q.data ≠ [] := by
    intro h0
    apply hq
    cases q
    simp_all
  have hfalse : pyContains (pyLower "") (pyLower q) = false := by
    apply decide_eq_false
    intro hcontra
    have h2 : (pyLower "").data = [] := rfl
    rw [h2] at hcontra
    have h1 : (pyLower q).data = [] := List.infix_nil.mp hcontra
    have h3 : (pyLower q).data = q.data.map Char.toLower := rfl
    rw [h3] at h1
    exact hqd (List.map_eq_nil_iff.mp h1)
  show ps.filter _ = ps.filter _
  apply List.filter_congr
  intro p _
  cases hd : p.description with
  | none => simp [specSearchMatch, hd]
  | some d =>
    by_cases hde : d = ""
    · subst hde
      simp [specSearchMatch, hd, hfalse]
    · have hb : (d == "") = false := by simp [hde]
      simp [specSearchMatch, hd, hb]

/-- C8 witness: the statement evaluated at a concrete prompt list, query
and store. -/
theorem C8_witness :
    ("alp" : String) ≠ "" ∧
    (search_prompts [samplePromptA, samplePromptB] "alp" =
      [samplePromptA, samplePromptB].filter (specSearchMatch "alp") ∧
    Api.list_prompts sampleStore none (some "") = Api.list_prompts sampleStore none none ∧
    (Api.list_prompts sampleStore none none).1 =
      sort_prompts_by_date
        (if truthy none then
          filter_prompts_by_collection (Storage.get_all_prompts sampleStore) (optVal none)
         else Storage.get_all_prompts sampleStore) true) :=
  ⟨by decide,
   C8_search_returns_exactly_matches [samplePromptA, samplePromptB] "alp" sampleStore none
     (by decide)⟩

/-- C1: the list-prompts result is always ordered by `created_at`
descending — for any two positions i < j of the returned sequence, the
entry at j was created no later than the entry at i, for every store state
and every combination of filters (so any stored prompt A with a strictly
greater `created_at` than B appears before B). -/
theorem C1_list_prompts_sorted_newest_first
    (st : Storage) (cid q : Option String) (i j : Nat)
    (hij : i < j) (hj : j < (Api.list_prompts st cid q).1.length) :
    ((Api.list_prompts st cid q).1.get ⟨j, hj⟩).created_at ≤
      ((Api.list_prompts st cid q).1.get ⟨i, Nat.lt_trans hij hj⟩).created_at := by
  obtain ⟨l, hl⟩ := list_prompts_fst_eq_sort st cid q
  have hpw : List.Pairwise (fun a b => b.created_at ≤ a.created_at)
      (Api.list_prompts st cid q).1 := by
    rw [hl]
    exact sortDesc_pairwise l
  exact List.pairwise_iff_get.mp hpw ⟨i, Nat.lt_trans hij hj⟩ ⟨j, hj⟩ hij

/-- C1 witness: on the sample store (two prompts created at times 1 and 2)
the listing puts the newer prompt first. -/
theorem C1_witness :
    (0 < 1 ∧ 1 < (Api.list_prompts sampleStore none none).1.length) ∧
    ((Api.list_prompts sampleStore none none).1.get ⟨1, by decide⟩).created_at ≤
      ((Api.list_prompts sampleStore none none).1.get ⟨0, by decide⟩).created_at :=
  ⟨⟨by decide, by decide⟩,
   C1_list_prompts_sorted_newest_first sampleStore none none 0 1 (by decide) (by decide)⟩

/-- C6: the cascade-unlink sets `collection_id` to null exactly on the
prompts that referenced the deleted collection and changes nothing else:
every stored prompt keeps its `id`, `title`, `content`, `description`,
`created_at` and — notably — `updated_at`; a prompt that did not reference
the collection keeps its `collection_id` too; the collection container and
the number of stored prompts are untouched. -/
theorem C6_unlink_frame_effect
    (st : Storage) (cid : String) (pid : String) (p : Prompt)
    (hget : Storage.get_prompt st pid = some p) :
    (∃ p2, Storage.get_prompt (Storage.update_prompts_collection_to_none st cid) pid = some p2 ∧
      p2.id = p.id ∧ p2.title = p.title ∧ p2.content = p.content ∧
      p2.description = p.description ∧ p2.created_at = p.created_at ∧
      p2.updated_at = p.updated_at ∧
      p2.collection_id = (if p.collection_id = some cid then none else p.collection_id)) ∧
    (Storage.update_prompts_collection_to_none st cid).collections = st.collections ∧
    (Storage.get_all_prompts (Storage.update_prompts_collection_to_none st cid)).length =
      (Storage.get_all_prompts st).length := by
  have hget2 : List.lookup pid st.prompts = some p := hget
  refine ⟨?_, rfl, by simp [Storage.get_all_prompts, Storage.update_prompts_collection_to_none]⟩
  refine ⟨if p.collection_id = some cid then { p with collection_id := none } else p,
    ?_, ?_, ?_, ?_, ?_, ?_, ?_, ?_⟩
  · show List.lookup pid (st.prompts.map (fun kv =>
        if kv.2.collection_id == some cid then (kv.1, { kv.2 with collection_id := none })
        else kv)) =
      some (if p.collection_id = some cid then { p with collection_id := none } else p)
    rw [lookup_unlink, hget2]
    rfl
  all_goals by_cases h : p.collection_id = some cid <;> simp [h]

/-- C6 witness: the statement evaluated on the sample store for prompt
`p1`, which references collection `c1`. -/
theorem C6_witness :
    Storage.get_prompt sampleStore "p1" = some samplePromptA ∧
    ((∃ p2, Storage.get_prompt
        (Storage.update_prompts_collection_to_none sampleStore "c1") "p1" = some p2 ∧
      p2.id = samplePromptA.id ∧ p2.title = samplePromptA.title ∧
      p2.content = samplePromptA.content ∧
      p2.description = samplePromptA.description ∧
      p2.created_at = samplePromptA.created_at ∧
      p2.updated_at = samplePromptA.updated_at ∧
      p2.collection_id =
        (if samplePromptA.collection_id = some "c1" then none
         else samplePromptA.collection_id)) ∧
    (Storage.update_prompts_collection_to_none sampleStore "c1").collections =
      sampleStore.collections ∧
    (Storage.get_all_prompts
        (Storage.update_prompts_collection_to_none sampleStore "c1")).length =
      (Storage.get_all_prompts sampleStore).length) :=
  ⟨rfl, C6_unlink_frame_effect sampleStore "c1" "p1" samplePromptA rfl⟩

/-- C5: deleting an existing collection succeeds; afterwards the collection
is no longer retrievable (404), every stored prompt that referenced it now
has `collection_id = null` (others are unchanged, as the per-prompt
characterisation shows), no stored prompt still references it, and no
prompt was deleted by the cascade (the prompt count is preserved). -/
theorem C5_delete_collection_cascade_unlink
    (st : Storage) (cid : String) (c : Collection)
    (hres : Storage.get_collection st cid = some c) :
    (Api.delete_collection st cid).2 = Except.ok () ∧
    Api.get_collection (Api.delete_collection st cid).1 cid =
      Except.error (ApiError.notFound "Collection not found") ∧
    (∀ pid p, Storage.get_prompt st pid = some p →
      Storage.get_prompt (Api.delete_collection st cid).1 pid =
        some (if p.collection_id = some cid then { p with collection_id := none } else p)) ∧
    (∀ p ∈ Storage.get_all_prompts (Api.delete_collection st cid).1,
      p.collection_id ≠ some cid) ∧
    (Storage.get_all_prompts (Api.delete_collection st cid).1).length =
      (Storage.get_all_prompts st).length := by
  have hc : dictContains st.collections cid = true := dictContains_of_lookup hres
  have hdel : Api.delete_collection st cid =
      (Storage.update_prompts_collection_to_none
        { st with collections := dictDelete st.collections cid } cid, Except.ok ()) := by
    simp [Api.delete_collection, Storage.delete_collection, hc]
  rw [hdel]
  refine ⟨rfl, ?_, ?_, ?_, ?_⟩
  · simp [Api.get_collection, Storage.get_collection,
      Storage.update_prompts_collection_to_none, lookup_dictDelete_self]
  · intro pid p hget
    have hget2 : List.lookup pid st.prompts = some p := hget
    show List.lookup pid (st.prompts.map (fun kv =>
        if kv.2.collection_id == some cid then (kv.1, { kv.2 with collection_id := none })
        else kv)) =
      some (if p.collection_id = some cid then { p with collection_id := none } else p)
    rw [lookup_unlink, hget2]
    rfl
  · intro p hp
    simp only [Storage.get_all_prompts, Storage.update_prompts_collection_to_none,
      List.map_map, List.mem_map] at hp
    obtain ⟨kv, _, hkv⟩ := hp
    by_cases h : kv.2.collection_id = some cid
    · rw [← hkv]
      simp [Function.comp, h]
    · rw [← hkv]
      simp [Function.comp, h]
  · simp [Storage.get_all_prompts, Storage.update_prompts_collection_to_none]

/-- C5 witness: the statement evaluated on the sample store, whose
collection `c1` is referenced by prompt `p1`. -/
theorem C5_witness :
    Storage.get_collection sampleStore "c1" = some sampleCollection ∧
    ((Api.delete_collection sampleStore "c1").2 = Except.ok () ∧
    Api.get_collection (Api.delete_collection sampleStore "c1").1 "c1" =
      Except.error (ApiError.notFound "Collection not found") ∧
    (∀ pid p, Storage.get_prompt sampleStore pid = some p →
      Storage.get_prompt (Api.delete_collection sampleStore "c1").1 pid =
        some (if p.collection_id = some "c1" then { p with collection_id := none } else p)) ∧
    (∀ p ∈ Storage.get_all_prompts (Api.delete_collection sampleStore "c1").1,
      p.collection_id ≠ some "c1") ∧
    (Storage.get_all_prompts (Api.delete_collection sampleStore "c1").1).length =
      (Storage.get_all_prompts sampleStore).length) :=
  ⟨rfl, C5_delete_collection_cascade_unlink sampleStore "c1" sampleCollection rfl⟩

-- ============ Invariant-preservation helpers (C9) ============

theorem id_key_dictInsert {α} (idf : α → String)
    {l : List (String × α)} {k : String} {v : α}
    (hl : ∀ kv ∈ l, idf kv.2 = kv.1) (hv : idf v = k) :
    ∀ kv ∈ dictInsert l k v, idf kv.2 = kv.1 := by
  intro kv hkv
  rcases mem_dictInsert hkv with h1 | h2
  · exact hl kv h1
  · rw [h2]
    exact hv

theorem keyConsistent_storage_create_prompt {s : Storage} (h : KeyConsistent s) (q : Prompt) :
    KeyConsistent (Storage.create_prompt s q).1 :=
  ⟨id_key_dictInsert Prompt.id h.1 rfl, h.2⟩

theorem keyConsistent_storage_update_prompt {s : Storage} (h : KeyConsistent s)
    {pid : String} {q : Prompt} (hq : q.id = pid) :
    KeyConsistent (Storage.update_prompt s pid q).1 := by
  by_cases hct : dictContains s.prompts pid = true
  · simp only [Storage.update_prompt, if_pos hct]
    exact ⟨id_key_dictInsert Prompt.id h.1 hq, h.2⟩
  · simp only [Storage.update_prompt, if_neg hct]
    exact h

theorem keyConsistent_storage_delete_prompt {s : Storage} (h : KeyConsistent s) (pid : String) :
    KeyConsistent (Storage.delete_prompt s pid).1 := by
  by_cases hct : dictContains s.prompts pid = true
  · simp only [Storage.delete_prompt, if_pos hct]
    exact ⟨fun kv hkv => h.1 kv (List.mem_of_mem_filter hkv), h.2⟩
  · simp only [Storage.delete_prompt, if_neg hct]
    exact h

theorem keyConsistent_storage_create_collection {s : Storage} (h : KeyConsistent s)
    (c : Collection) : KeyConsistent (Storage.create_collection s c).1 :=
  ⟨h.1, id_key_dictInsert Collection.id h.2 rfl⟩

theorem keyConsistent_unlink {s : Storage} (h : KeyConsistent s) (cid : String) :
    KeyConsistent (Storage.update_prompts_collection_to_none s cid) := by
  refine ⟨?_, h.2⟩
  intro kv hkv
  simp only [Storage.update_prompts_collection_to_none] at hkv
  rcases List.mem_map.mp hkv with ⟨x, hx, hfx⟩
  by_cases hc : (x.2.collection_id == some cid) = true
  · rw [← hfx]
    simp only [if_pos hc]
    exact h.1 x hx
  · rw [← hfx]
    simp only [if_neg hc]
    exact h.1 x hx

theorem keyConsistent_step {st : Storage} (h : KeyConsistent st) (op : Op) :
    KeyConsistent (step st op) := by
  obtain ⟨hP, hC⟩ := h
  cases op with
  | createPromptOp newId now pd =>
    show KeyConsistent (Api.create_prompt st newId now pd).1
    by_cases hcond : (truthy pd.collection_id &&
        (Storage.get_collection st (optVal pd.collection_id)).isNone) = true
    · simp only [Api.create_prompt, if_pos hcond]
      exact ⟨hP, hC⟩
    · simp only [Api.create_prompt, if_neg hcond]
      exact keyConsistent_storage_create_prompt ⟨hP, hC⟩ _
  | putPromptOp now pid pd =>
    show KeyConsistent (Api.update_prompt st now pid pd).1
    cases hget : Storage.get_prompt st pid with
    | none =>
      simp only [Api.update_prompt, hget]
      exact ⟨hP, hC⟩
    | some existing =>
      have hid : existing.id = pid := hP (pid, existing) (lookup_mem hget)
      by_cases hcond : (truthy pd.collection_id &&
          (Storage.get_collection st (optVal pd.collection_id)).isNone) = true
      · simp only [Api.update_prompt, hget, if_pos hcond]
        exact ⟨hP, hC⟩
      · simp only [Api.update_prompt, hget, if_neg hcond]
        exact keyConsistent_storage_update_prompt ⟨hP, hC⟩ hid
  | patchPromptOp now pid pd =>
    show KeyConsistent (Api.patch_prompt st now pid pd).1
    cases hget : Storage.get_prompt st pid with
    | none =>
      simp only [Api.patch_prompt, hget]
      exact ⟨hP, hC⟩
    | some existing =>
      have hid : existing.id = pid := hP (pid, existing) (lookup_mem hget)
      have hMut : KeyConsistent { st with
          prompts := dictInsert st.prompts pid
            { existing with
              title := pd.title, content := pd.content,
              description := match pd.description with
                | some d => some d
                | none => existing.description } } :=
        ⟨id_key_dictInsert Prompt.id hP hid, hC⟩
      by_cases ht : truthy pd.collection_id = true
      · cases hcol : Storage.get_collection st (optVal pd.collection_id) with
        | none =>
          simp only [Api.patch_prompt, hget, ht, if_pos, hcol]
          exact hMut
        | some c =>
          simp only [Api.patch_prompt, hget, ht, if_pos, hcol]
          exact keyConsistent_storage_update_prompt hMut hid
      · have ht2 : truthy pd.collection_id = false := Bool.eq_false_iff.mpr ht
        simp only [Api.patch_prompt, hget, ht2, Bool.false_eq_true, if_false]
        exact keyConsistent_storage_update_prompt hMut hid
  | deletePromptOp pid =>
    show KeyConsistent (Api.delete_prompt st pid).1
    by_cases hct : dictContains st.prompts pid = true
    · simp only [Api.delete_prompt, Storage.delete_prompt, if_pos hct]
      exact ⟨fun kv hkv => hP kv (List.mem_of_mem_filter hkv), hC⟩
    · simp only [Api.delete_prompt, Storage.delete_prompt, if_neg hct]
      exact ⟨hP, hC⟩
  | createCollectionOp newId now cd =>
    show KeyConsistent (Api.create_collection st newId now cd).1
    exact keyConsistent_storage_create_collection ⟨hP, hC⟩ _
  | deleteCollectionOp cid =>
    show KeyConsistent (Api.delete_collection st cid).1
    by_cases hct : dictContains st.collections cid = true
    · have h1 : KeyConsistent { st with collections := dictDelete st.collections cid } :=
        ⟨hP, fun kv hkv => hC kv (List.mem_of_mem_filter hkv)⟩
      simp only [Api.delete_collection, Storage.delete_collection, if_pos hct]
      exact keyConsistent_unlink h1 cid
    · simp only [Api.delete_collection, Storage.delete_collection, if_neg hct]
      exact ⟨hP, hC⟩

theorem keyConsistent_foldl {st : Storage} (h : KeyConsistent st) (ops : List Op) :
    KeyConsistent (List.foldl step st ops) := by
  induction ops generalizing st with
  | nil => exact h
  | cons op rest ih => exact ih (keyConsistent_step h op)

/-- C9: store key-consistency invariant — after any sequence of public API
operations run from the empty store, every stored prompt sits in the prompt
container under a key equal to its own `id`, and every stored collection
under a key equal to its own `id`; every operation (create, replace,
partial update, delete, cascade-unlink) preserves this. -/
theorem C9_store_key_consistency (ops : List Op) :
    KeyConsistent (List.foldl step Storage.empty ops) :=
  keyConsistent_foldl
    ⟨fun kv hkv => by simp [Storage.empty] at hkv,
     fun kv hkv => by simp [Storage.empty] at hkv⟩ ops
